import Mathlib

/-!
Shallow embedding of the despi-m02-pistop traffic-light controller
(Rust sources: src/trafficlight.rs, src/trafficlight/semaphore.rs,
src/timed_output_masker.rs, src/main.rs, src/io.rs), together with
theorems settling the specification claims about it.
-/

namespace PiStop

/-! ## trafficlight.rs -/

/-- The `Phase` enum of src/trafficlight.rs (lines 5-13). -/
inductive Phase
  | Stop
  | Attention
  | Go
  | Yield
  | ClearCrossing
  | FlashOn
  | FlashOff
deriving DecidableEq, Repr

instance : Fintype Phase :=
  ⟨⟨{.Stop, .Attention, .Go, .Yield, .ClearCrossing, .FlashOn, .FlashOff}, by decide⟩,
   by intro x; cases x <;> decide⟩

/-- The `TrafficLight` struct of src/trafficlight.rs (lines 16-19). -/
structure TrafficLight where
  phase : Phase
  have_permit : Bool
deriving DecidableEq, Repr

/-- `needs_permit` of src/trafficlight.rs (lines 21-26). -/
def needs_permit : Phase → Bool
  | .Attention | .Yield | .Go | .ClearCrossing => true
  | .Stop | .FlashOn | .FlashOff => false

/-- `TrafficLight::new` of src/trafficlight.rs (lines 29-34). -/
def TrafficLight.new : TrafficLight :=
  { phase := .Stop, have_permit := false }

/-- `TrafficLight::next_phase` of src/trafficlight.rs (lines 39-58). -/
def TrafficLight.next_phase (t : TrafficLight) (maintenance_mode : Bool) : Phase :=
  match t.phase, maintenance_mode with
  -- free run mode...
  | .Stop, false => .Attention
  | .Attention, false => .Go
  | .Go, false => .Yield
  | .Yield, false => .ClearCrossing
  | .ClearCrossing, false => .Stop
  | .FlashOn, false => .ClearCrossing
  | .FlashOff, false => .ClearCrossing
  -- maintenance mode...
  | .Stop, true => .FlashOn
  | .Attention, true => .Go
  | .Go, true => .Yield
  | .Yield, true => .ClearCrossing
  | .ClearCrossing, true => .FlashOn
  | .FlashOn, true => .FlashOff
  | .FlashOff, true => .FlashOn

/-- Result of one `TrafficLight::go_to_next_phase` call (src/trafficlight.rs
lines 60-76): the updated state, plus whether this call performed
`acquire_permit()` respectively `release_permit()` on the crossing
semaphore. -/
structure StepResult where
  light : TrafficLight
  acquired : Bool
  released : Bool
deriving DecidableEq, Repr

/-- `TrafficLight::go_to_next_phase` of src/trafficlight.rs (lines 60-76).
The semaphore calls `acquire_permit().await` and `release_permit()` are
recorded in the `acquired` / `released` fields of the result. -/
def TrafficLight.go_to_next_phase (t : TrafficLight) (maintenance_mode : Bool) : StepResult :=
  let np : Phase := t.next_phase maintenance_mode
  match t.have_permit, needs_permit np with
  | false, true => ⟨{ phase := np, have_permit := true }, true, false⟩
  | true, false => ⟨{ phase := np, have_permit := false }, false, true⟩
  | false, false => ⟨{ phase := np, have_permit := false }, false, false⟩
  | true, true => ⟨{ phase := np, have_permit := true }, false, false⟩

/-- `TrafficLight::phase_time_seconds` of src/trafficlight.rs (lines 104-113). -/
def TrafficLight.phase_time_seconds (t : TrafficLight) : Nat :=
  match t.phase with
  | .Stop => 10
  | .Attention => 1
  | .Go => 4
  | .Yield => 3
  | .ClearCrossing => 2
  | .FlashOn | .FlashOff => 1

/-- State of a run of `go_to_next_phase` steps: the light together with the
total number of semaphore acquires and releases performed so far. -/
structure RunResult where
  light : TrafficLight
  acquires : Nat
  releases : Nat
deriving DecidableEq, Repr

/-- Iterate `TrafficLight::go_to_next_phase` over a list of
`maintenance_mode` arguments, counting semaphore acquires and releases. -/
def runLight (t : TrafficLight) (acq rel : Nat) : List Bool → RunResult
  | [] => ⟨t, acq, rel⟩
  | m :: ms =>
    let s : StepResult := t.go_to_next_phase m
    runLight s.light (acq + cond s.acquired 1 0) (rel + cond s.released 1 0) ms

/-! ## trafficlight/semaphore.rs -/

/-- `release_permit` of src/trafficlight/semaphore.rs (lines 21-23): it
unconditionally performs `CROSSING_SEMAPHORE.release(1)`, which adds one
permit to the semaphore's pool. Modelled on the semaphore's available-permit
count. -/
def release_permit (semaphore_count : Nat) : Nat :=
  semaphore_count + 1

/-! ## main.rs: system mode reading -/

/-- The `SystemMode` enum of src/main.rs (lines 31-37) and src/io.rs
(lines 26-32). -/
inductive SystemMode
  | Normal
  | Flash
  | PriorityA
  | PriorityB
deriving DecidableEq, Repr

instance : Fintype SystemMode :=
  ⟨⟨{.Normal, .Flash, .PriorityA, .PriorityB}, by decide⟩,
   by intro x; cases x <;> decide⟩

/-- `read_system_mode` of src/main.rs (lines 424-435) and src/io.rs
(lines 210-225). The three arguments are `mode_inputs[k].is_low()` for
k = 0, 1, 2; the match arms are tried in source order. -/
def read_system_mode (b0 b1 b2 : Bool) : SystemMode :=
  match b0, b1, b2 with
  | false, false, false => .Normal
  | true, _, _ => .Flash
  | _, true, _ => .PriorityA
  | _, _, true => .PriorityB

/-! ## main.rs: dwell times of the mode tasks -/

/-- Dwell times, in milliseconds, of the four phases (Attention, Go, Yield,
ClearCrossing) of `normal_mode_task` in src/main.rs (the
`Timer::after_millis` arguments at lines 222, 227, 232, 237). -/
def normal_mode_dwell_millis : List Nat := [3000, 8000, 6000, 4000]

/-- Dwell times, in milliseconds, of the four phases (Attention, Go, Yield,
ClearCrossing) of `priority_mode_task` in src/main.rs (the
`Timer::after_millis` arguments at lines 302, 306, 315, 319; the
lockout-poll loop between Go and Yield is not a fixed dwell and is not
listed). -/
def priority_mode_dwell_millis : List Nat := [1500, 4000, 3000, 2000]

/-- C6 as stated claims Attention dwells 1.5 s by default. -/
theorem C6_counterexample :
    (TrafficLight.mk .Attention false).phase_time_seconds * 1000 = 1000 ∧
    ¬ ((1000 : Nat) = 1500) ∧
    normal_mode_dwell_millis.sum = 21000 ∧
    ¬ ((21000 : Nat) = 10500) := by
  refine ⟨rfl, by decide, rfl, by decide⟩

/-- C6 (amended): the default dwells of `phase_time_seconds` are
Attention 1 s, Go 4 s, Yield 3 s, ClearCrossing 2 s, so those four phases
total 10 s; `normal_mode_task` dwells 3 s, 8 s, 6 s and 4 s in those
phases, totalling 21 s; the 1.5 s / 4 s / 3 s / 2 s pattern totalling
10.5 s is the one used by `priority_mode_task`. -/
theorem C6_dwell_times (b : Bool) :
    (TrafficLight.mk .Attention b).phase_time_seconds = 1 ∧
    (TrafficLight.mk .Go b).phase_time_seconds = 4 ∧
    (TrafficLight.mk .Yield b).phase_time_seconds = 3 ∧
    (TrafficLight.mk .ClearCrossing b).phase_time_seconds = 2 ∧
    (TrafficLight.mk .Attention b).phase_time_seconds
      + (TrafficLight.mk .Go b).phase_time_seconds
      + (TrafficLight.mk .Yield b).phase_time_seconds
      + (TrafficLight.mk .ClearCrossing b).phase_time_seconds = 10 ∧
    normal_mode_dwell_millis.sum = 21000 ∧
    priority_mode_dwell_millis.sum = 10500 := by
  refine ⟨rfl, rfl, rfl, rfl, rfl, rfl, rfl⟩

/-- C7: `next_phase` is total — every (phase, maintenance flag) pair maps to
exactly one next phase — and in free run it cycles
Stop→Attention→Go→Yield→ClearCrossing→Stop, while with the maintenance flag
set Stop goes to FlashOn, FlashOn and FlashOff alternate, and when the flag
clears in FlashOn or FlashOff the next phase is ClearCrossing. -/
theorem C7_next_phase_total_and_table (hp : Bool) :
    (∀ (p : Phase) (m : Bool),
      ∃! q : Phase, (TrafficLight.mk p hp).next_phase m = q) ∧
    (TrafficLight.mk .Stop hp).next_phase false = .Attention ∧
    (TrafficLight.mk .Attention hp).next_phase false = .Go ∧
    (TrafficLight.mk .Go hp).next_phase false = .Yield ∧
    (TrafficLight.mk .Yield hp).next_phase false = .ClearCrossing ∧
    (TrafficLight.mk .ClearCrossing hp).next_phase false = .Stop ∧
    (TrafficLight.mk .Stop hp).next_phase true = .FlashOn ∧
    (TrafficLight.mk .FlashOn hp).next_phase true = .FlashOff ∧
    (TrafficLight.mk .FlashOff hp).next_phase true = .FlashOn ∧
    (TrafficLight.mk .FlashOn hp).next_phase false = .ClearCrossing ∧
    (TrafficLight.mk .FlashOff hp).next_phase false = .ClearCrossing := by
  refine ⟨fun p m => ⟨(TrafficLight.mk p hp).next_phase m, rfl, fun y hy => hy.symm⟩,
    rfl, rfl, rfl, rfl, rfl, rfl, rfl, rfl, rfl, rfl⟩

/-! ## timed_output_masker.rs -/

/-- The `Pins` enum of src/timed_output_masker.rs (lines 34-60). -/
inductive Pins
  | ARed
  | AAmber
  | AGreen
  | APedestrianRed
  | APedestrianGreen
  | APromise
  | ABeeper
  | BRed
  | BAmber
  | BGreen
  | BPedestrianRed
  | BPedestrianGreen
  | BPromise
  | BBeeper
  | OnBoardPower
  | Power
  | SwitchingMode
deriving DecidableEq, Repr

/-- `Pins::VARIANT_COUNT`: the `Pins` enum has 17 variants. -/
def VARIANT_COUNT : Nat := 17

/-- The `OutputStateDescriptor` struct of src/timed_output_masker.rs
(lines 62-68). -/
structure OutputStateDescriptor where
  is_on : Bool
  subject_to_slow_cycle : Bool
  subject_to_fast_cycle : Bool
  subject_to_pip_timer : Bool
deriving DecidableEq, Repr

/-- `OutputStateDescriptor::new` of src/timed_output_masker.rs
(lines 71-78). -/
def OutputStateDescriptor.new : OutputStateDescriptor :=
  { is_on := false
    subject_to_slow_cycle := false
    subject_to_fast_cycle := false
    subject_to_pip_timer := false }

/-- The `TimedOutputMasker` struct of src/timed_output_masker.rs
(lines 81-88). Arrays indexed by pin ordinal become functions on
`Fin VARIANT_COUNT`; the `AtomicBool` cells become plain booleans (they are
only read and written inside the masker, under the caller's mutex). -/
structure TimedOutputMasker where
  output_descriptors : Fin VARIANT_COUNT → OutputStateDescriptor
  active_lows : Fin VARIANT_COUNT → Bool
  tick_count : Nat
  slow_cycle_value : Bool
  fast_cycle_value : Bool
  pip_timer_value : Bool

/-- `TICKS_PER_CYCLE` of src/timed_output_masker.rs (line 90). -/
def TICKS_PER_CYCLE : Nat := 100

/-- `TimedOutputMasker::new` of src/timed_output_masker.rs (lines 92-101). -/
def TimedOutputMasker.new (active_lows : Fin VARIANT_COUNT → Bool) : TimedOutputMasker :=
  { output_descriptors := fun _ => OutputStateDescriptor.new
    active_lows := active_lows
    tick_count := TICKS_PER_CYCLE - 1
    slow_cycle_value := false
    fast_cycle_value := false
    pip_timer_value := false }

/-- `TimedOutputMasker::advance_timers` of src/timed_output_masker.rs
(lines 115-124). `tick_count` is a `u8` in the source; since it always
stays below `TICKS_PER_CYCLE = 100`, the `u8` addition never wraps and the
counter is modelled as a natural number. -/
def TimedOutputMasker.advance_timers (m : TimedOutputMasker) : TimedOutputMasker :=
  let tick : Nat := (m.tick_count + 1) % TICKS_PER_CYCLE
  { m with
    tick_count := tick
    slow_cycle_value := decide (tick < 50)
    fast_cycle_value := decide ((tick / 10) % 2 = 1)
    pip_timer_value := decide (tick = 0) }

/-- `TimedOutputMasker::mask_output_pins` of src/timed_output_masker.rs
(lines 126-148). -/
def TimedOutputMasker.mask_output_pins (m : TimedOutputMasker) : Fin VARIANT_COUNT → Bool :=
  fun i =>
    let d : OutputStateDescriptor := m.output_descriptors i
    let o0 : Bool := d.is_on
    let o1 : Bool := if d.subject_to_slow_cycle then o0 && m.slow_cycle_value else o0
    let o2 : Bool := if d.subject_to_fast_cycle then o1 && m.fast_cycle_value else o1
    let o3 : Bool := if d.subject_to_pip_timer then o2 && m.pip_timer_value else o2
    if m.active_lows i then !o3 else o3

/-- `TimedOutputMasker::call_at_100_hz` of src/timed_output_masker.rs
(lines 110-113): advance the timers, then return the masked output levels
(together with the updated masker, which in Rust is mutated in place). -/
def TimedOutputMasker.call_at_100_hz (m : TimedOutputMasker) :
    (Fin VARIANT_COUNT → Bool) × TimedOutputMasker :=
  let m2 : TimedOutputMasker := m.advance_timers
  (m2.mask_output_pins, m2)

/-- Run `n` consecutive `call_at_100_hz` ticks, collecting the output
vector of each tick. -/
def TimedOutputMasker.run (m : TimedOutputMasker) : Nat → List (Fin VARIANT_COUNT → Bool)
  | 0 => []
  | n + 1 =>
    let r := m.call_at_100_hz
    r.1 :: r.2.run n

/-- C4: every `call_at_100_hz` call first advances the tick counter to
(counter + 1) mod 100, then sets slowCycle = (counter < 50),
fastCycle = ((counter / 10) is odd), pipCycle = (counter == 0), and for
every pin the returned level is
(on AND (not slowSub OR slow) AND (not fastSub OR fast) AND (not pipSub OR pip))
XOR activeLow, the active-low inversion coming last. -/
theorem C4_mask_formula (m : TimedOutputMasker) (i : Fin VARIANT_COUNT) :
    (m.call_at_100_hz.2.tick_count = (m.tick_count + 1) % 100) ∧
    (m.call_at_100_hz.2.slow_cycle_value = decide (m.call_at_100_hz.2.tick_count < 50)) ∧
    (m.call_at_100_hz.2.fast_cycle_value
      = decide ((m.call_at_100_hz.2.tick_count / 10) % 2 = 1)) ∧
    (m.call_at_100_hz.2.pip_timer_value = decide (m.call_at_100_hz.2.tick_count = 0)) ∧
    (m.call_at_100_hz.1 i =
      Bool.xor
        ((m.output_descriptors i).is_on
          && (!(m.output_descriptors i).subject_to_slow_cycle
                || m.call_at_100_hz.2.slow_cycle_value)
          && (!(m.output_descriptors i).subject_to_fast_cycle
                || m.call_at_100_hz.2.fast_cycle_value)
          && (!(m.output_descriptors i).subject_to_pip_timer
                || m.call_at_100_hz.2.pip_timer_value))
        (m.active_lows i)) := by
  have hmask : ∀ (w : TimedOutputMasker) (j : Fin VARIANT_COUNT),
      w.mask_output_pins j =
        Bool.xor
          ((w.output_descriptors j).is_on
            && (!(w.output_descriptors j).subject_to_slow_cycle || w.slow_cycle_value)
            && (!(w.output_descriptors j).subject_to_fast_cycle || w.fast_cycle_value)
            && (!(w.output_descriptors j).subject_to_pip_timer || w.pip_timer_value))
          (w.active_lows j) := by
    intro w j
    cases ho : (w.output_descriptors j).is_on <;>
      cases hs : (w.output_descriptors j).subject_to_slow_cycle <;>
      cases hf : (w.output_descriptors j).subject_to_fast_cycle <;>
      cases hp : (w.output_descriptors j).subject_to_pip_timer <;>
      cases hsl : w.slow_cycle_value <;>
      cases hfa : w.fast_cycle_value <;>
      cases hpi : w.pip_timer_value <;>
      cases hal : w.active_lows j <;>
      simp [TimedOutputMasker.mask_output_pins, ho, hs, hf, hp, hsl, hfa, hpi, hal]
  refine ⟨rfl, rfl, rfl, rfl, ?_⟩
  have h2 : m.call_at_100_hz.1 i = m.advance_timers.mask_output_pins i := rfl
  rw [h2, hmask m.advance_timers i]
  rfl

/-- C9: the per-tick output is deterministic — two maskers that agree on
the descriptor table, the active-low configuration and the tick counter
(whatever the three cached cycle values are) produce identical output
vectors at every step of any run of `call_at_100_hz` calls; in particular,
replaying a tick sequence from a freshly constructed masker reproduces the
identical output sequence. -/
theorem C9_deterministic_replay
    (d : Fin VARIANT_COUNT → OutputStateDescriptor) (a : Fin VARIANT_COUNT → Bool)
    (t : Nat) (c1 c2 c3 c1' c2' c3' : Bool) (n : Nat) :
    (TimedOutputMasker.mk d a t c1 c2 c3).run n
      = (TimedOutputMasker.mk d a t c1' c2' c3').run n ∧
    (TimedOutputMasker.new a).run n = (TimedOutputMasker.new a).run n := by
  refine ⟨?_, rfl⟩
  cases n with
  | zero => rfl
  | succ k => rfl

/-- C10: a freshly constructed masker has tick counter
TICKS_PER_CYCLE − 1 = 99, and the first `call_at_100_hz` wraps it to 0,
where the pip pulse fires (pip true), slowCycle is true and fastCycle is
false. -/
theorem C10_first_tick (active_lows : Fin VARIANT_COUNT → Bool) :
    (TimedOutputMasker.new active_lows).tick_count = TICKS_PER_CYCLE - 1 ∧
    (TimedOutputMasker.new active_lows).tick_count = 99 ∧
    (TimedOutputMasker.new active_lows).call_at_100_hz.2.tick_count = 0 ∧
    (TimedOutputMasker.new active_lows).call_at_100_hz.2.slow_cycle_value = true ∧
    (TimedOutputMasker.new active_lows).call_at_100_hz.2.fast_cycle_value = false ∧
    (TimedOutputMasker.new active_lows).call_at_100_hz.2.pip_timer_value = true := by
  refine ⟨rfl, rfl, ?_, ?_, ?_, ?_⟩ <;>
    simp [TimedOutputMasker.new, TimedOutputMasker.call_at_100_hz,
      TimedOutputMasker.advance_timers, TICKS_PER_CYCLE]

/-- C8 as stated claims every combination with bit 1 set maps to PriorityA;
with bits 0 and 1 both set the code returns Flash. -/
theorem C8_counterexample :
    read_system_mode true true false = .Flash ∧
    SystemMode.Flash ≠ SystemMode.PriorityA := by
  refine ⟨rfl, by decide⟩

/-- C8 (amended): `read_system_mode` maps the all-low combination to Normal
and otherwise picks the first set bit in order: bit 0 gives Flash, else
bit 1 gives PriorityA, else bit 2 gives PriorityB. -/
theorem C8_read_system_mode (b0 b1 b2 : Bool) :
    read_system_mode b0 b1 b2 =
      if b0 then .Flash
      else if b1 then .PriorityA
      else if b2 then .PriorityB
      else .Normal := by
  cases b0 <;> cases b1 <;> cases b2 <;> rfl

/-! ## main.rs: permit helpers of the mode supervisor -/

/-- `ensure_released` of src/main.rs (lines 528-534): releasing a permit
that is not marked held panics with "double free of permit"; the panic
happens before `semaphore.release(1)`, so the `Except.error` carries the
unchanged flag and semaphore count. Otherwise one permit is returned to
the semaphore's pool and the held flag clears. -/
def ensure_released (permit : Bool) (semaphore_count : Nat) :
    Except (Bool × Nat) (Bool × Nat) :=
  if !permit then Except.error (permit, semaphore_count)
  else Except.ok (false, semaphore_count + 1)

/-- `ensure_aquired` of src/main.rs (lines 522-527): acquire one permit
from the semaphore (the `await` suspends until one is available) unless
the flag already marks it held. -/
def ensure_aquired (permit : Bool) (semaphore_count : Nat) : Bool × Nat :=
  if !permit then (true, semaphore_count - 1) else (permit, semaphore_count)

/-- C3 as stated claims `release_permit` of the single-mode variant is a
no-op when no permit is held; on a semaphore holding 1 available permit it
yields 2, so the count changes. -/
theorem C3_counterexample :
    release_permit 1 = 2 ∧ (2 : Nat) ≠ 1 := by
  exact ⟨rfl, by decide⟩

/-- C3 (amended): in the multi-mode supervisor variant, `ensure_released`
with the held flag false halts (panics) with the semaphore count unchanged,
and with the flag true returns one permit and clears the flag; in the
single-mode variant, `release_permit` never halts but is not a no-op — it
unconditionally adds one permit to the semaphore's pool, without any
held-permit tracking. -/
theorem C3_release_behaviour (n : Nat) :
    ensure_released false n = Except.error (false, n) ∧
    ensure_released true n = Except.ok (false, n + 1) ∧
    release_permit n = n + 1 ∧
    release_permit n ≠ n := by
  refine ⟨rfl, rfl, rfl, by simp [release_permit]⟩

/-! ## main.rs: pedestrian call latching -/

/-- The three sticky booleans of the `PedestrianLights` struct of
src/main.rs (lines 92-101); the pin fields and the masker reference are
omitted — only the flag state is latched across calls. -/
structure PedPromiseState where
  old_promise : Bool
  active : Bool
  promise_made : Bool
deriving DecidableEq, Repr

/-- `PedestrianLights::make_promise` of src/main.rs (lines 184-197): it
stores `promise_made := true` unconditionally, turns the promise-indicator
pin on, and writes the beeper pin (subject to the pip timer) with level
equal to the current `active` flag. Returns the updated flags together
with the level written to the beeper pin. -/
def PedPromiseState.make_promise (p : PedPromiseState) : PedPromiseState × Bool :=
  ({ p with promise_made := true }, p.active)

/-- C5 as stated claims that with `active` false a call leaves
`promiseMade` unchanged; from the state with all flags false,
`make_promise` still sets `promiseMade` true. -/
theorem C5_counterexample :
    (PedPromiseState.mk false false false).make_promise.1.promise_made = true ∧
    (PedPromiseState.mk false false false).promise_made = false ∧
    (true : Bool) ≠ false := by
  refine ⟨rfl, rfl, by decide⟩

/-- C5 (amended): `make_promise` sets `promiseMade` to true regardless of
the `active` flag (a call outside an active cycle is latched, not
ignored); `active` only selects the level written to the beeper pin, and
the other two flags are unchanged. -/
theorem C5_make_promise (p : PedPromiseState) :
    p.make_promise.1.promise_made = true ∧
    p.make_promise.1.active = p.active ∧
    p.make_promise.1.old_promise = p.old_promise ∧
    p.make_promise.2 = p.active := by
  refine ⟨rfl, rfl, rfl, rfl⟩

/-! ## main.rs: the mode supervisor (`system_mode_task`, lines 437-520) -/

/-- Program points of the `system_mode_task` loop of src/main.rs, one per
suspension-free block, in source order: store `lockout = false`
(line 462), re-read a pending mode signal (lines 468-470), release the
active mode's permit (lines 472-489), wait for the next mode signal
(line 492), store `lockout = true` (line 512), and the four
`ensure_aquired` calls (lines 515-518). -/
inductive SupPC
  | releaseLockout
  | checkSignal
  | releaseMode
  | awaitMode
  | setLockout
  | acquireNormal
  | acquireFlash
  | acquirePrioA
  | acquirePrioB
deriving DecidableEq, Repr

/-- The supervisor's state: program point, the global `LOCKOUT` flag, the
four `have_*_permit` booleans of `system_mode_task`, and its local `mode`
variable. -/
structure SupState where
  pc : SupPC
  lockout : Bool
  have_normal_permit : Bool
  have_flash_permit : Bool
  have_priority_a_permit : Bool
  have_priority_b_permit : Bool
  mode : SystemMode
deriving DecidableEq, Repr

/-- Environment input consumed by one supervisor step: whether a mode
signal is already pending at the `signaled()` check, and which mode the
blocking `wait()` delivers. -/
structure SupInput where
  pending : Option SystemMode
  signaled : SystemMode
deriving DecidableEq, Repr

/-- The `have_*_permit` flag of the given mode (the coordinator selected
by the `match mode` at src/main.rs lines 472-489). -/
def permitFlag (s : SupState) : SystemMode → Bool
  | .Normal => s.have_normal_permit
  | .Flash => s.have_flash_permit
  | .PriorityA => s.have_priority_a_permit
  | .PriorityB => s.have_priority_b_permit

/-- How many of the four coordinators' permits the supervisor marks
held. -/
def heldPermits (s : SupState) : Nat :=
  cond s.have_normal_permit 1 0 + cond s.have_flash_permit 1 0
    + cond s.have_priority_a_permit 1 0 + cond s.have_priority_b_permit 1 0

/-- One step of `system_mode_task`: the block at the current program
point, exactly in source order. `ensure_released` on an un-held flag
panics (`Except.error` with the state at the halt); `ensure_aquired` only
acquires when the flag is clear, which on these booleans is the same as
setting the flag. -/
def supStep (s : SupState) (i : SupInput) : Except SupState SupState :=
  match s.pc with
  | .releaseLockout => Except.ok { s with lockout := false, pc := .checkSignal }
  | .checkSignal =>
    match i.pending with
    | some m => Except.ok { s with mode := m, pc := .releaseMode }
    | none => Except.ok { s with pc := .releaseMode }
  | .releaseMode =>
    match s.mode with
    | .Normal =>
      if s.have_normal_permit then
        Except.ok { s with have_normal_permit := false, pc := .awaitMode }
      else Except.error s
    | .Flash =>
      if s.have_flash_permit then
        Except.ok { s with have_flash_permit := false, pc := .awaitMode }
      else Except.error s
    | .PriorityA =>
      if s.have_priority_a_permit then
        Except.ok { s with have_priority_a_permit := false, pc := .awaitMode }
      else Except.error s
    | .PriorityB =>
      if s.have_priority_b_permit then
        Except.ok { s with have_priority_b_permit := false, pc := .awaitMode }
      else Except.error s
  | .awaitMode => Except.ok { s with mode := i.signaled, pc := .setLockout }
  | .setLockout => Except.ok { s with lockout := true, pc := .acquireNormal }
  | .acquireNormal => Except.ok { s with have_normal_permit := true, pc := .acquireFlash }
  | .acquireFlash => Except.ok { s with have_flash_permit := true, pc := .acquirePrioA }
  | .acquirePrioA => Except.ok { s with have_priority_a_permit := true, pc := .acquirePrioB }
  | .acquirePrioB => Except.ok { s with have_priority_b_permit := true, pc := .releaseLockout }

/-- The supervisor's start state (src/main.rs lines 448-457 and the
initialisation of `LOCKOUT` at line 206): lockout set, all four permits
held, mode = `start_mode`. -/
def supInit (start_mode : SystemMode) : SupState :=
  { pc := .releaseLockout
    lockout := true
    have_normal_permit := true
    have_flash_permit := true
    have_priority_a_permit := true
    have_priority_b_permit := true
    mode := start_mode }

/-- Run the supervisor over a list of environment inputs, stopping at a
panic. -/
def supRun (s : SupState) : List SupInput → Except SupState SupState
  | [] => Except.ok s
  | i :: is =>
    match supStep s i with
    | Except.ok s2 => supRun s2 is
    | Except.error e => Except.error e

/-- The inductive invariant of the supervisor loop, per program point. -/
def supInvB (s : SupState) : Bool :=
  match s.pc with
  | .releaseLockout => (heldPermits s == 4) && s.lockout
  | .checkSignal => (heldPermits s == 4) && !s.lockout
  | .releaseMode => (heldPermits s == 4) && !s.lockout
  | .awaitMode => (heldPermits s == 3) && !permitFlag s s.mode && !s.lockout
  | .setLockout => (heldPermits s == 3) && !s.lockout
  | .acquireNormal => (heldPermits s == 3) && s.lockout
  | .acquireFlash =>
    decide (3 ≤ heldPermits s) && s.have_normal_permit && s.lockout
  | .acquirePrioA =>
    decide (3 ≤ heldPermits s) && s.have_normal_permit && s.have_flash_permit && s.lockout
  | .acquirePrioB =>
    decide (3 ≤ heldPermits s) && s.have_normal_permit && s.have_flash_permit
      && s.have_priority_a_permit && s.lockout

/-- `supStep` preserves the invariant (panicking runs excepted). -/
def supStepOkB (s : SupState) (i : SupInput) : Bool :=
  match supStep s i with
  | Except.ok s2 => supInvB s2
  | Except.error _ => true

theorem supStep_preserves :
    ∀ (s : SupState) (i : SupInput), supInvB s = true → supStepOkB s i = true := by
  intro s i h
  rcases s with ⟨pc, lk, n, f, a, b, md⟩
  rcases i with ⟨pending, sig⟩
  cases pc with
  | releaseLockout =>
    simp_all [supStepOkB, supStep, supInvB, heldPermits]
  | checkSignal =>
    cases pending <;> simp_all [supStepOkB, supStep, supInvB, heldPermits]
  | releaseMode =>
    cases md <;> cases n <;> cases f <;> cases a <;> cases b <;>
      simp_all [supStepOkB, supStep, supInvB, heldPermits, permitFlag]
  | awaitMode =>
    simp_all [supStepOkB, supStep, supInvB, heldPermits, permitFlag]
  | setLockout =>
    simp_all [supStepOkB, supStep, supInvB, heldPermits]
  | acquireNormal =>
    cases n <;> cases f <;> cases a <;> cases b <;>
      simp_all [supStepOkB, supStep, supInvB, heldPermits]
  | acquireFlash =>
    cases n <;> cases f <;> cases a <;> cases b <;>
      simp_all [supStepOkB, supStep, supInvB, heldPermits]
  | acquirePrioA =>
    cases n <;> cases f <;> cases a <;> cases b <;>
      simp_all [supStepOkB, supStep, supInvB, heldPermits]
  | acquirePrioB =>
    cases n <;> cases f <;> cases a <;> cases b <;>
      simp_all [supStepOkB, supStep, supInvB, heldPermits]

theorem supRun_inv :
    ∀ (ins : List SupInput) (s : SupState), supInvB s = true →
      ∀ s2, supRun s ins = Except.ok s2 → supInvB s2 = true := by
  intro ins
  induction ins with
  | nil =>
    intro s h s2 h2
    simp only [supRun] at h2
    cases h2
    exact h
  | cons i is ih =>
    intro s h s2 h2
    have hp := supStep_preserves s i h
    simp only [supRun] at h2
    rcases hstep : supStep s i with e | s3 <;> rw [hstep] at h2
    · cases h2
    · rw [supStepOkB, hstep] at hp
      exact ih s3 hp s2 h2

/-- C2 as stated claims lockout is never false while the supervisor holds
fewer than all four permits; three supervisor steps from the start state
(release lockout, no pending signal, release the flash permit) reach the
signal-wait point holding only three permits with lockout false. -/
theorem C2_counterexample :
    supRun (supInit SystemMode.Flash)
        [⟨none, SystemMode.Normal⟩, ⟨none, SystemMode.Normal⟩, ⟨none, SystemMode.Normal⟩]
      = Except.ok
          ⟨.awaitMode, false, true, false, true, true, SystemMode.Flash⟩ ∧
    (SupState.mk .awaitMode false true false true true SystemMode.Flash).lockout = false ∧
    heldPermits (SupState.mk .awaitMode false true false true true SystemMode.Flash) = 3 ∧
    ¬ (4 ≤ heldPermits
        (SupState.mk .awaitMode false true false true true SystemMode.Flash)) := by
  refine ⟨rfl, rfl, rfl, by decide⟩

/-- C2 (amended): in every reachable supervisor state, while any of the
four `ensure_aquired` calls is being attempted the lockout flag is true
(it is set before the first acquire); lockout is cleared only at the top
of the loop, where all four permits are held; and whenever lockout is
false the supervisor holds at least three permits — three, not four, is
the floor, because after clearing lockout it releases the newly active
mode's permit and then waits for the next signal. -/
theorem C2_supervisor_lockout (start : SystemMode) (ins : List SupInput) (s : SupState)
    (h : supRun (supInit start) ins = Except.ok s) :
    (s.lockout = false → 3 ≤ heldPermits s) ∧
    ((s.pc = .acquireNormal ∨ s.pc = .acquireFlash
        ∨ s.pc = .acquirePrioA ∨ s.pc = .acquirePrioB) → s.lockout = true) ∧
    (s.pc = .releaseLockout → heldPermits s = 4) := by
  have h0 : supInvB (supInit start) = true := by cases start <;> rfl
  have hinv := supRun_inv ins (supInit start) h0 s h
  clear h h0
  rcases s with ⟨pc, lk, n, f, a, b, md⟩
  cases pc <;> cases lk <;> cases n <;> cases f <;> cases a <;> cases b <;>
    simp_all [supInvB, heldPermits, permitFlag]

/-- Witness for C2_supervisor_lockout at the empty run. -/
theorem C2_supervisor_lockout_witness :
    supRun (supInit SystemMode.Flash) [] = Except.ok (supInit SystemMode.Flash) ∧
    (((supInit SystemMode.Flash).lockout = false → 3 ≤ heldPermits (supInit SystemMode.Flash)) ∧
      (((supInit SystemMode.Flash).pc = .acquireNormal
          ∨ (supInit SystemMode.Flash).pc = .acquireFlash
          ∨ (supInit SystemMode.Flash).pc = .acquirePrioA
          ∨ (supInit SystemMode.Flash).pc = .acquirePrioB)
        → (supInit SystemMode.Flash).lockout = true) ∧
      ((supInit SystemMode.Flash).pc = .releaseLockout
        → heldPermits (supInit SystemMode.Flash) = 4)) :=
  ⟨rfl, C2_supervisor_lockout SystemMode.Flash [] (supInit SystemMode.Flash) rfl⟩

/-! ## C1: the permit protocol of `go_to_next_phase` -/

/-- One `go_to_next_phase` step: the new phase is `next_phase`, the new
permit flag matches `needs_permit` of the new phase, and the acquire and
release calls happen exactly on the flag transitions. -/
theorem go_step_facts (t : TrafficLight) (m : Bool) :
    (t.go_to_next_phase m).light.phase = t.next_phase m ∧
    (t.go_to_next_phase m).light.have_permit = needs_permit (t.next_phase m) ∧
    (t.go_to_next_phase m).acquired = (!t.have_permit && needs_permit (t.next_phase m)) ∧
    (t.go_to_next_phase m).released = (t.have_permit && !needs_permit (t.next_phase m)) := by
  cases hp : t.have_permit <;> cases hn : needs_permit (t.next_phase m) <;>
    simp [TrafficLight.go_to_next_phase, hp, hn]

/-- Invariant of `runLight`: if the permit flag agrees with `needs_permit`
of the current phase and the acquire count exceeds the release count by
exactly the flag, both facts are preserved by any run. -/
theorem runLight_inv (ms : List Bool) : ∀ (t : TrafficLight) (acq rel : Nat),
    t.have_permit = needs_permit t.phase →
    acq = rel + cond t.have_permit 1 0 →
    (runLight t acq rel ms).light.have_permit
        = needs_permit (runLight t acq rel ms).light.phase ∧
    (runLight t acq rel ms).acquires
        = (runLight t acq rel ms).releases
            + cond (runLight t acq rel ms).light.have_permit 1 0 := by
  induction ms with
  | nil =>
    intro t acq rel h1 h2
    exact ⟨h1, h2⟩
  | cons m ms ih =>
    intro t acq rel h1 h2
    have hf := go_step_facts t m
    simp only [runLight]
    refine ih _ _ _ (hf.2.1.trans (by rw [hf.1])) ?_
    rw [hf.2.2.1, hf.2.2.2, hf.2.1, h2]
    cases hp : t.have_permit <;> cases hn : needs_permit (t.next_phase m) <;>
      simp [hp, hn]

/-- C1: along every run of `go_to_next_phase` from `TrafficLight::new`,
the permit flag equals `needs_permit` of the current phase after every
transition; a permit is acquired exactly on a transition from a
non-permit-needing phase into a permit-needing one and released exactly on
the reverse transition; and the acquire count minus the release count is
always the flag, hence 0 or 1 — never zero permits in a permit-needing
phase, never two permits. -/
theorem C1_permit_protocol (ms : List Bool) (m : Bool) :
    (runLight TrafficLight.new 0 0 ms).light.have_permit
        = needs_permit (runLight TrafficLight.new 0 0 ms).light.phase ∧
    (runLight TrafficLight.new 0 0 ms).acquires
        = (runLight TrafficLight.new 0 0 ms).releases
            + cond (runLight TrafficLight.new 0 0 ms).light.have_permit 1 0 ∧
    (runLight TrafficLight.new 0 0 ms).acquires
        - (runLight TrafficLight.new 0 0 ms).releases ≤ 1 ∧
    ((runLight TrafficLight.new 0 0 ms).light.go_to_next_phase m).acquired
        = (!needs_permit (runLight TrafficLight.new 0 0 ms).light.phase
            && needs_permit ((runLight TrafficLight.new 0 0 ms).light.next_phase m)) ∧
    ((runLight TrafficLight.new 0 0 ms).light.go_to_next_phase m).released
        = (needs_permit (runLight TrafficLight.new 0 0 ms).light.phase
            && !needs_permit ((runLight TrafficLight.new 0 0 ms).light.next_phase m)) ∧
    ((runLight TrafficLight.new 0 0 ms).light.go_to_next_phase m).light.have_permit
        = needs_permit
            ((runLight TrafficLight.new 0 0 ms).light.go_to_next_phase m).light.phase := by
  have hinv := runLight_inv ms TrafficLight.new 0 0 rfl rfl
  have hf := go_step_facts (runLight TrafficLight.new 0 0 ms).light m
  refine ⟨hinv.1, hinv.2, ?_, ?_, ?_, hf.2.1.trans (by rw [hf.1])⟩
  · rcases hc : (runLight TrafficLight.new 0 0 ms).light.have_permit <;>
      rw [hinv.2, hc] <;> simp
  · rw [hf.2.2.1, hinv.1]
  · rw [hf.2.2.2, hinv.1]

end PiStop
